import Mathlib

/-!
Verification of the asset-caching subsystem of the penta_organization
repository: the service worker in `sw.js` (cache partition table, strategy
selector, cache-first / stale-while-revalidate / network-first strategies,
install and activate lifecycle, cache-status reporting, model preloading)
and the page-side `ModelPreloader` in `assets/js/modules/animations.js`.

The embedding is a shallow one.  A captured response is a record with its
`ok` flag and body; the network is a function from request URL to
`Option Response` where `none` models a rejected fetch (network-level
failure) and `some r` a resolved fetch, possibly with `r.ok = false`
(server error).  Cache storage is an association list from cache name to
partition, a partition an association list from URL to response, mirroring
the browser CacheStorage / Cache pair.  Each strategy returns, besides its
result, the storage as it stands at the moment the strategy's promise
resolves together with the list of cache writes that the source initiates
with `cache.put(...)` but does not await (in `sw.js` the strategy puts are
fire-and-forget, unlike the awaited puts of the install and preload loops);
`settle` applies those pending writes, giving the storage once the
background tasks have run to completion.  A strategy result of
`Except.error ()` models a rejected promise, `Except.ok none` a promise
resolving to `undefined`.
-/

/-- A captured network response: its `ok` status flag and an opaque body. -/
structure Response where
  ok : Bool
  body : String
deriving DecidableEq, Repr

/-- The network: `none` models a rejected fetch, `some r` a resolved one. -/
abbrev Network := String → Option Response

/-- One named cache: an association list from request URL to stored response. -/
abbrev Partition := List (String × Response)

/-- The browser cache storage: association list from cache name to partition. -/
abbrev CacheStorage := List (String × Partition)

/-- `cache.match(request)`: first stored response for the URL, if any. -/
def cacheMatch (p : Partition) (url : String) : Option Response :=
  (p.find? (fun e => e.1 == url)).map (fun e => e.2)

/-- `cache.put(request, response)`: store the response under the URL,
replacing any previous entry for the same URL. -/
def partitionPut (p : Partition) (url : String) (r : Response) : Partition :=
  (url, r) :: p.filter (fun e => e.1 != url)

/-- `caches.open(name)`: ensure a cache of that name exists (created empty
when absent); existing contents are untouched. -/
def CacheStorage.openCache (s : CacheStorage) (name : String) : CacheStorage :=
  if s.any (fun c => c.1 == name) then s else s ++ [(name, [])]

/-- The partition stored under a cache name (empty when the cache does not
exist yet). -/
def CacheStorage.getPartition : CacheStorage → String → Partition
  | [], _ => []
  | c :: t, name => if c.1 == name then c.2 else CacheStorage.getPartition t name

/-- Write a response into the named cache, creating the cache when absent
(in the source a `caches.open` always precedes the `put`). -/
def CacheStorage.putIn : CacheStorage → String → String → Response → CacheStorage
  | [], name, url, r => [(name, partitionPut [] url r)]
  | c :: t, name, url, r =>
    if c.1 == name then (c.1, partitionPut c.2 url r) :: t
    else c :: CacheStorage.putIn t name url r

/-- `caches.keys()`: the names of all existing caches. -/
def cacheKeys (s : CacheStorage) : List String := s.map (fun c => c.1)

/-- `caches.delete(name)`: remove the named cache entirely. -/
def CacheStorage.deleteCache (s : CacheStorage) (name : String) : CacheStorage :=
  s.filter (fun c => c.1 != name)

/-- Outcome of one strategy invocation: the value its promise resolves or
rejects with, the storage at that moment, the puts initiated but not yet
awaited (cache name, URL, response), and the URLs fetched over the network. -/
structure StratOutcome where
  result : Except Unit (Option Response)
  storage : CacheStorage
  pending : List (String × String × Response)
  fetched : List String
deriving Repr

/-- Apply the pending (un-awaited) cache writes: the storage once the
strategy's background work has settled. -/
def StratOutcome.settle (o : StratOutcome) : CacheStorage :=
  o.pending.foldl (fun s e => s.putIn e.1 e.2.1 e.2.2) o.storage

/-- `cacheFirst(request, cacheName)` from `sw.js`: open the cache, return a
cached match when present (no fetch); otherwise fetch, and when the response
is ok initiate (without awaiting) a cache write before returning the network
response; a rejected fetch propagates. -/
def cacheFirst (request cacheName : String) (net : Network) (s : CacheStorage) :
    StratOutcome :=
  let s₁ := s.openCache cacheName
  match cacheMatch (s₁.getPartition cacheName) request with
  | some c => ⟨.ok (some c), s₁, [], []⟩
  | none =>
    match net request with
    | none => ⟨.error (), s₁, [], [request]⟩
    | some r =>
      if r.ok then ⟨.ok (some r), s₁, [(cacheName, request, r)], [request]⟩
      else ⟨.ok (some r), s₁, [], [request]⟩

/-- `staleWhileRevalidate(request, cacheName)` from `sw.js`: snapshot the
cached match, always start a fetch; a cached match is returned immediately;
on a miss the function resolves with the fetch outcome, where a rejected
fetch is replaced (via `.catch`) by the snapshot taken before the fetch —
`none` on a miss; an ok network response is put (un-awaited, in the
background `then`) into the cache in every case. -/
def staleWhileRevalidate (request cacheName : String) (net : Network)
    (s : CacheStorage) : StratOutcome :=
  let s₁ := s.openCache cacheName
  let cached := cacheMatch (s₁.getPartition cacheName) request
  match net request with
  | none =>
    match cached with
    | some c => ⟨.ok (some c), s₁, [], [request]⟩
    | none => ⟨.ok none, s₁, [], [request]⟩
  | some r =>
    let pend := if r.ok then [(cacheName, request, r)] else []
    match cached with
    | some c => ⟨.ok (some c), s₁, pend, [request]⟩
    | none => ⟨.ok (some r), s₁, pend, [request]⟩

/-- `networkFirst(request, cacheName)` from `sw.js`: fetch first; a resolved
response (ok or not) is returned, with an un-awaited cache write when ok;
only a rejected fetch falls back to the cache, and with no cached match the
rejection propagates. -/
def networkFirst (request cacheName : String) (net : Network) (s : CacheStorage) :
    StratOutcome :=
  let s₁ := s.openCache cacheName
  match net request with
  | some r =>
    if r.ok then ⟨.ok (some r), s₁, [(cacheName, request, r)], [request]⟩
    else ⟨.ok (some r), s₁, [], [request]⟩
  | none =>
    match cacheMatch (s₁.getPartition cacheName) request with
    | some c => ⟨.ok (some c), s₁, [], [request]⟩
    | none => ⟨.error (), s₁, [], [request]⟩

/-- `CACHE_VERSION` from `sw.js`. -/
def CACHE_VERSION : String := "v1"

/-- `CACHE_NAMES.models`. -/
def modelsCacheName : String := "penta-3d-models-" ++ CACHE_VERSION

/-- `CACHE_NAMES.static`. -/
def staticCacheName : String := "penta-static-" ++ CACHE_VERSION

/-- `CACHE_NAMES.runtime`. -/
def runtimeCacheName : String := "penta-runtime-" ++ CACHE_VERSION

/-- `Object.values(CACHE_NAMES)`: the three current-version cache names. -/
def currentCacheNames : List String :=
  [modelsCacheName, staticCacheName, runtimeCacheName]

/-- `MODEL_ASSETS` from `sw.js`, in manifest order. -/
def MODEL_ASSETS : List String :=
  ["./assets/3d/logo_3d_just_icon.glb",
   "./assets/3d/corparete_event.glb",
   "./assets/3d/decoration.glb",
   "./assets/3d/staff.glb",
   "./assets/3d/technical.glb",
   "./assets/3d/transfer.glb"]

/-- `STATIC_ASSETS` from `sw.js`. -/
def STATIC_ASSETS : List String :=
  ["./assets/css/main.css",
   "./assets/css/components.css",
   "./assets/js/main.js",
   "./assets/images/logo.png"]

/-- The three resource classes of the strategy selector. -/
inductive ResourceClass where
  | model
  | staticAsset
  | document
deriving DecidableEq, Repr

/-- JavaScript `String.prototype.endsWith`, over the character sequence. -/
def strEndsWith (s suf : String) : Bool :=
  suf.data.isSuffixOf s.data

/-- `url.pathname.endsWith('.glb') || url.pathname.endsWith('.gltf')`. -/
def isModelPath (p : String) : Bool :=
  strEndsWith p ".glb" || strEndsWith p ".gltf"

/-- `url.pathname.match(/\.(css|js|png|jpg|jpeg|svg|woff2?)$/)`: the path
ends with a dot followed by one of the listed static-asset suffixes. -/
def isStaticPath (p : String) : Bool :=
  strEndsWith p ".css" || strEndsWith p ".js" || strEndsWith p ".png" ||
  strEndsWith p ".jpg" || strEndsWith p ".jpeg" || strEndsWith p ".svg" ||
  strEndsWith p ".woff" || strEndsWith p ".woff2"

/-- `url.pathname.endsWith('.html') || url.pathname === '/'`. -/
def isDocumentPath (p : String) : Bool :=
  strEndsWith p ".html" || p == "/"

/-- The if/else-if chain of the `fetch` listener, as a classifier: model
extensions first, then static extensions, then markup or root; anything
else is not intercepted. -/
def classify (p : String) : Option ResourceClass :=
  if isModelPath p then some .model
  else if isStaticPath p then some .staticAsset
  else if isDocumentPath p then some .document
  else none

/-- A request URL, split into its origin and pathname as the listener reads
them from `new URL(event.request.url)`. -/
structure Url where
  origin : String
  pathname : String
deriving DecidableEq, Repr

/-- The `fetch` listener of `sw.js`: cross-origin requests return without
`respondWith` (`none`), same-origin requests are dispatched to the strategy
selected by the path classifier, and unclassified requests pass through
untouched (`none`). -/
def handleFetch (selfOrigin : String) (u : Url) (net : Network)
    (s : CacheStorage) : Option StratOutcome :=
  if u.origin != selfOrigin then none
  else
    match classify u.pathname with
    | some .model => some (cacheFirst u.pathname modelsCacheName net s)
    | some .staticAsset => some (staleWhileRevalidate u.pathname staticCacheName net s)
    | some .document => some (networkFirst u.pathname runtimeCacheName net s)
    | none => none

/-- Whether fetching the asset resolves with an ok response. -/
def fetchOk (net : Network) (a : String) : Bool :=
  match net a with
  | some r => r.ok
  | none => false

/-- One iteration of the install loop over `MODEL_ASSETS`: fetch the model;
an ok response is awaited and stored in the model cache; a non-ok response
is skipped and a rejected fetch is caught and skipped (non-fatal). -/
def cacheModelsStep (net : Network) (s : CacheStorage) (m : String) :
    CacheStorage :=
  match net m with
  | some r => if r.ok then s.putIn modelsCacheName m r else s
  | none => s

/-- `cache.addAll(assets)`: the browser bulk-store primitive.  All assets
are fetched; the whole operation rejects when any fetch rejects or resolves
with a non-ok response, and stores every response only when all are ok. -/
def addAll (net : Network) (name : String) (assets : List String)
    (s : CacheStorage) : Except Unit CacheStorage :=
  if assets.all (fetchOk net) then
    .ok (assets.foldl
      (fun st a =>
        match net a with
        | some r => st.putIn name a r
        | none => st) s)
  else .error ()

/-- The `install` listener of `sw.js`, instrumented with the list of URLs
it fetches, in order: open the model cache, populate the models one by one
in manifest order (per-asset failures swallowed), then open the static
cache and bulk-store `STATIC_ASSETS` with `addAll`, whose failure rejects
the whole install.  The fetch log records every attempted URL: all models
in manifest order, then the static batch. -/
def installTrace (net : Network) (s : CacheStorage) :
    Except Unit CacheStorage × List String :=
  let step := fun (acc : CacheStorage × List String) (m : String) =>
    (cacheModelsStep net acc.1 m, acc.2 ++ [m])
  let after := MODEL_ASSETS.foldl step (s.openCache modelsCacheName, [])
  match addAll net staticCacheName STATIC_ASSETS (after.1.openCache staticCacheName) with
  | .ok s₃ => (.ok s₃, after.2 ++ STATIC_ASSETS)
  | .error e => (.error e, after.2 ++ STATIC_ASSETS)

/-- The `activate` listener of `sw.js`: delete every cache whose name is
not among `Object.values(CACHE_NAMES)`; on an association list this keeps
exactly the caches with a current-version name. -/
def activate (s : CacheStorage) : CacheStorage :=
  s.filter (fun c => currentCacheNames.contains c.1)

/-- The reply record of `getCacheStatus` in `sw.js`. -/
structure CacheStatus where
  version : String
  cachedModels : List String
  totalModels : Nat
  cachedCount : Nat
deriving DecidableEq, Repr

/-- `getCacheStatus()` from `sw.js`: open the model cache, list its keys;
reply with the version, the key URLs, `MODEL_ASSETS.length` and the key
count. -/
def getCacheStatus (s : CacheStorage) : CacheStatus :=
  let modelKeys := ((s.openCache modelsCacheName).getPartition modelsCacheName).map
    (fun e => e.1)
  { version := CACHE_VERSION
    cachedModels := modelKeys
    totalModels := MODEL_ASSETS.length
    cachedCount := modelKeys.length }

/-- One iteration of `preloadModels()` in `sw.js`: skip a model already
cached; otherwise fetch it and store it when the response is ok, swallowing
non-ok responses and rejected fetches. -/
def preloadModelsStep (net : Network) (s : CacheStorage) (m : String) :
    CacheStorage :=
  match cacheMatch (s.getPartition modelsCacheName) m with
  | some _ => s
  | none =>
    match net m with
    | some r => if r.ok then s.putIn modelsCacheName m r else s
    | none => s

/-- `preloadModels()` from `sw.js` (the PRELOAD_MODELS message handler):
open the model cache, then walk `MODEL_ASSETS`, fetching and storing each
model not already cached. -/
def preloadModels (net : Network) (s : CacheStorage) : CacheStorage :=
  MODEL_ASSETS.foldl (preloadModelsStep net) (s.openCache modelsCacheName)

/-- `ModelPreloader.models` from `animations.js`, in its priority order. -/
def PRELOADER_MODELS : List String :=
  ["./assets/3d/logo_3d_just_icon.glb",
   "./assets/3d/staff.glb",
   "./assets/3d/corparete_event.glb",
   "./assets/3d/technical.glb",
   "./assets/3d/transfer.glb",
   "./assets/3d/decoration.glb"]

/-- `ModelPreloader.preloadWithFetch(url, cache)` from `animations.js`:
fetch the URL; an ok response is awaited and put into the cache; a non-ok
response is dropped and a rejected fetch is caught and logged only. -/
def preloadWithFetch (url : String) (cacheName : String) (net : Network)
    (s : CacheStorage) : CacheStorage :=
  match net url with
  | some r => if r.ok then s.putIn cacheName url r else s
  | none => s

/-- `ModelPreloader.preloadAllModels()` from `animations.js`: open the
hard-coded `penta-3d-models-v1` cache and, for each model of the preloader
manifest not already cached, fetch and store it via `preloadWithFetch`.
The source issues the per-model tasks concurrently; cache writes are
idempotent and keyed per URL, so one interleaving is embedded. -/
def preloadAllModels (net : Network) (s : CacheStorage) : CacheStorage :=
  PRELOADER_MODELS.foldl
    (fun st m =>
      match cacheMatch (st.getPartition "penta-3d-models-v1") m with
      | some _ => st
      | none => preloadWithFetch m "penta-3d-models-v1" net st)
    (s.openCache "penta-3d-models-v1")

/-- Run `cacheFirst` for the same URL `n` times in sequence, letting each
invocation's background cache write settle before the next request, and
count the network fetches performed in total. -/
def repeatCacheFirst : Nat → String → String → Network → CacheStorage →
    Nat × CacheStorage
  | 0, _, _, _, s => (0, s)
  | Nat.succ n, url, name, net, s =>
    let o := cacheFirst url name net s
    let rest := repeatCacheFirst n url name net o.settle
    (o.fetched.length + rest.1, rest.2)

/-- Feed a list of requests through the `fetch` listener in sequence, each
outcome's background writes settling before the next request; requests the
listener does not intercept leave the storage unchanged. -/
def runRequests (selfOrigin : String) (us : List Url) (net : Network)
    (s : CacheStorage) : CacheStorage :=
  us.foldl
    (fun st u =>
      match handleFetch selfOrigin u net st with
      | some o => o.settle
      | none => st) s

/-- Every response stored anywhere in cache storage has `ok = true`. -/
def storageAllOk (s : CacheStorage) : Bool :=
  s.all (fun c => c.2.all (fun e => e.2.ok))

deriving instance DecidableEq for Except

/-! ### Basic lemmas about the cache-storage operations -/

theorem getPartition_append_empty (s : CacheStorage) (n : String) :
    CacheStorage.getPartition (s ++ [(n, [])]) n = s.getPartition n := by
  induction s with
  | nil => simp [CacheStorage.getPartition]
  | cons c t ih =>
    by_cases hc : (c.1 == n) = true <;>
      simp [CacheStorage.getPartition, hc, ih]

theorem getPartition_openCache (s : CacheStorage) (n : String) :
    (s.openCache n).getPartition n = s.getPartition n := by
  unfold CacheStorage.openCache
  split
  · rfl
  · exact getPartition_append_empty s n

theorem getPartition_putIn (s : CacheStorage) (n u : String) (r : Response) :
    (s.putIn n u r).getPartition n = partitionPut (s.getPartition n) u r := by
  induction s with
  | nil => simp [CacheStorage.putIn, CacheStorage.getPartition]
  | cons c t ih =>
    by_cases hc : (c.1 == n) = true <;>
      simp [CacheStorage.putIn, CacheStorage.getPartition, hc, ih]

theorem cacheMatch_partitionPut_self (p : Partition) (u : String) (r : Response) :
    cacheMatch (partitionPut p u r) u = some r := by
  simp [cacheMatch, partitionPut, List.find?]

theorem openCache_of_match {s : CacheStorage} {n url : String} {c : Response}
    (h : cacheMatch (s.getPartition n) url = some c) :
    s.openCache n = s := by
  have hany : s.any (fun e => e.1 == n) = true := by
    induction s with
    | nil => simp [CacheStorage.getPartition, cacheMatch] at h
    | cons e t ih =>
      by_cases he : (e.1 == n) = true
      · simp [he]
      · simp [CacheStorage.getPartition, he] at h
        simp [List.any_cons, ih h]
  simp [CacheStorage.openCache, hany]

/-! ### Sample responses, networks and states used by witnesses -/

/-- A successful (ok) response. -/
def okResp : Response := { ok := true, body := "payload" }

/-- A server-error response: the fetch resolves but `ok` is false. -/
def srvErrResp : Response := { ok := false, body := "500" }

/-- A network on which every fetch resolves ok. -/
def okNet : Network := fun _ => some okResp

/-- A network on which every fetch rejects. -/
def failNet : Network := fun _ => none

/-- A network on which every fetch resolves with a server error. -/
def srvErrNet : Network := fun _ => some srvErrResp

/-! ### C6: activate-time garbage collection -/

theorem cacheKeys_filter (s : CacheStorage) (p : String → Bool) :
    cacheKeys (s.filter (fun c => p c.1)) = (cacheKeys s).filter p := by
  induction s with
  | nil => rfl
  | cons c t ih =>
    by_cases h : p c.1 = true <;>
      simp [cacheKeys, List.filter_cons, h] <;>
      simpa [cacheKeys] using ih

/-- C6: after the activate handler completes, the caches that remain are
exactly those of the original storage bearing a current-version name, so
every surviving cache name is one of the three current partition names and
every other name has been deleted. -/
theorem C6_activate_garbage_collection (s : CacheStorage) :
    cacheKeys (activate s) = (cacheKeys s).filter (fun n => currentCacheNames.contains n) ∧
    (cacheKeys (activate s)).all (fun n => currentCacheNames.contains n) = true := by
  have h1 : cacheKeys (activate s) =
      (cacheKeys s).filter (fun n => currentCacheNames.contains n) :=
    cacheKeys_filter s (fun n => currentCacheNames.contains n)
  refine ⟨h1, ?_⟩
  rw [h1, List.all_eq_true]
  intro n hn
  exact (List.mem_filter.mp hn).2

/-! ### C9: the strategy selector -/

/-- C9: the fetch listener classifies each same-origin request into at most
one class by path-suffix precedence — model extensions first, then static
extensions, then markup or the root path — requests matching none of the
three rules are not intercepted, and cross-origin requests are never
intercepted regardless of suffix. -/
theorem C9_strategy_selector :
    (∀ (o : String) (u : Url) (net : Network) (s : CacheStorage),
      u.origin ≠ o → handleFetch o u net s = none) ∧
    (∀ p, isModelPath p = true → classify p = some ResourceClass.model) ∧
    (∀ p, isModelPath p = false → isStaticPath p = true →
      classify p = some ResourceClass.staticAsset) ∧
    (∀ p, isModelPath p = false → isStaticPath p = false →
      isDocumentPath p = true → classify p = some ResourceClass.document) ∧
    (∀ p, isModelPath p = false → isStaticPath p = false →
      isDocumentPath p = false → classify p = none) ∧
    (∀ (o : String) (u : Url) (net : Network) (s : CacheStorage),
      classify u.pathname = none → handleFetch o u net s = none) := by
  refine ⟨?_, ?_, ?_, ?_, ?_, ?_⟩
  · intro o u net s h
    simp [handleFetch, bne_iff_ne, h]
  · intro p h
    simp [classify, h]
  · intro p h1 h2
    simp [classify, h1, h2]
  · intro p h1 h2 h3
    simp [classify, h1, h2, h3]
  · intro p h1 h2 h3
    simp [classify, h1, h2, h3]
  · intro o u net s h
    by_cases ho : (u.origin != o) = true <;> simp [handleFetch, ho, h]

/-- Witness for C9 at concrete requests: a cross-origin model request is
not intercepted, concrete paths land in each of the three classes with the
stated precedence, and an unclassified same-origin path passes through. -/
theorem C9_strategy_selector_witness :
    handleFetch "https://example.com"
      { origin := "https://evil.com", pathname := "/x.glb" } okNet [] = none ∧
    classify "/assets/3d/staff.glb" = some ResourceClass.model ∧
    classify "/assets/css/main.css" = some ResourceClass.staticAsset ∧
    classify "/about.html" = some ResourceClass.document ∧
    classify "/api/data" = none ∧
    handleFetch "https://example.com"
      { origin := "https://example.com", pathname := "/api/data" } okNet [] = none := by
  refine ⟨?_, ?_, ?_, ?_, ?_, ?_⟩
  · exact C9_strategy_selector.1 "https://example.com"
      { origin := "https://evil.com", pathname := "/x.glb" } okNet [] (by decide)
  · exact C9_strategy_selector.2.1 "/assets/3d/staff.glb" (by decide)
  · exact C9_strategy_selector.2.2.1 "/assets/css/main.css" (by decide) (by decide)
  · exact C9_strategy_selector.2.2.2.1 "/about.html" (by decide) (by decide) (by decide)
  · exact C9_strategy_selector.2.2.2.2.1 "/api/data" (by decide) (by decide) (by decide)
  · exact C9_strategy_selector.2.2.2.2.2 "https://example.com"
      { origin := "https://example.com", pathname := "/api/data" } okNet [] (by decide)

/-! ### C1: cache-first never refetches a cached model -/

theorem cacheFirst_hit {url name : String} (net : Network) {s : CacheStorage}
    {c : Response} (h : cacheMatch (s.getPartition name) url = some c) :
    cacheFirst url name net s = ⟨.ok (some c), s, [], []⟩ := by
  have ho : s.openCache name = s := openCache_of_match h
  simp [cacheFirst, ho, h]

theorem cacheFirst_miss_ok {url name : String} {net : Network} {s : CacheStorage}
    {r : Response} (h : cacheMatch (s.getPartition name) url = none)
    (hn : net url = some r) (hr : r.ok = true) :
    cacheFirst url name net s =
      ⟨.ok (some r), s.openCache name, [(name, url, r)], [url]⟩ := by
  have h₁ : cacheMatch ((s.openCache name).getPartition name) url = none := by
    rw [getPartition_openCache]; exact h
  simp [cacheFirst, h₁, hn, hr]

theorem cacheMatch_settle_putIn (s : CacheStorage) (name url : String)
    (r : Response) :
    cacheMatch ((s.putIn name url r).getPartition name) url = some r := by
  rw [getPartition_putIn]
  exact cacheMatch_partitionPut_self _ _ _

theorem repeatCacheFirst_hit_zero (url name : String) (net : Network) :
    ∀ (n : Nat) (s : CacheStorage) (c : Response),
      cacheMatch (s.getPartition name) url = some c →
      (repeatCacheFirst n url name net s).1 = 0 := by
  intro n
  induction n with
  | zero => intro s c _; rfl
  | succ n ih =>
    intro s c h
    have hcf := cacheFirst_hit net h
    simp only [repeatCacheFirst, hcf, StratOutcome.settle, List.foldl_nil,
      List.length_nil, Nat.zero_add]
    exact ih s c h

/-- C1: a model-class request whose match is already stored in the model
partition is answered from the cache with no network fetch; and once a miss
has been fetched successfully and its background write has settled, any
number of repeated requests for the same URL keep the total network-fetch
count at exactly one. -/
theorem C1_cache_first_no_refetch :
    (∀ (url : String) (net : Network) (s : CacheStorage) (c : Response),
      cacheMatch (s.getPartition modelsCacheName) url = some c →
      (cacheFirst url modelsCacheName net s).result = Except.ok (some c) ∧
      (cacheFirst url modelsCacheName net s).fetched = []) ∧
    (∀ (n : Nat) (url : String) (net : Network) (s : CacheStorage) (r : Response),
      cacheMatch (s.getPartition modelsCacheName) url = none →
      net url = some r → r.ok = true →
      (repeatCacheFirst (n + 1) url modelsCacheName net s).1 = 1) := by
  constructor
  · intro url net s c h
    rw [cacheFirst_hit net h]
    exact ⟨rfl, rfl⟩
  · intro n url net s r h hn hr
    have hcf := cacheFirst_miss_ok h hn hr
    have hsettle : (cacheFirst url modelsCacheName net s).settle =
        (s.openCache modelsCacheName).putIn modelsCacheName url r := by
      rw [hcf]; rfl
    have hmatch : cacheMatch
        (((cacheFirst url modelsCacheName net s).settle).getPartition modelsCacheName)
        url = some r := by
      rw [hsettle]
      exact cacheMatch_settle_putIn _ _ _ _
    have hzero := repeatCacheFirst_hit_zero url modelsCacheName net n
      (cacheFirst url modelsCacheName net s).settle r hmatch
    simp only [repeatCacheFirst, hzero]
    rw [hcf]
    rfl

/-- Witness for C1: a concrete cached model is served with no fetch, and
five repeated requests for an initially uncached model fetch exactly once. -/
theorem C1_cache_first_no_refetch_witness :
    ((cacheFirst "/assets/3d/staff.glb" modelsCacheName failNet
        [(modelsCacheName, [("/assets/3d/staff.glb", okResp)])]).result =
      Except.ok (some okResp) ∧
     (cacheFirst "/assets/3d/staff.glb" modelsCacheName failNet
        [(modelsCacheName, [("/assets/3d/staff.glb", okResp)])]).fetched = []) ∧
    (repeatCacheFirst 5 "/assets/3d/staff.glb" modelsCacheName okNet []).1 = 1 :=
  ⟨C1_cache_first_no_refetch.1 "/assets/3d/staff.glb" failNet
      [(modelsCacheName, [("/assets/3d/staff.glb", okResp)])] okResp (by decide),
   C1_cache_first_no_refetch.2 4 "/assets/3d/staff.glb" okNet [] okResp
      (by decide) rfl rfl⟩

/-! ### C8: stale-while-revalidate serves the cached copy immediately -/

theorem swr_hit_result {url name : String} {net : Network} {s : CacheStorage}
    {c : Response} (h : cacheMatch (s.getPartition name) url = some c) :
    (staleWhileRevalidate url name net s).result = Except.ok (some c) := by
  have h₁ : cacheMatch ((s.openCache name).getPartition name) url = some c := by
    rw [getPartition_openCache]; exact h
  cases hn : net url with
  | none => simp [staleWhileRevalidate, h₁, hn]
  | some r => simp [staleWhileRevalidate, h₁, hn]

theorem swr_settle_update {url name : String} {net : Network} {s : CacheStorage}
    {r : Response} (hn : net url = some r) (hr : r.ok = true) :
    cacheMatch (((staleWhileRevalidate url name net s).settle).getPartition name)
      url = some r := by
  cases hc : cacheMatch ((s.openCache name).getPartition name) url with
  | some c =>
    simp only [staleWhileRevalidate, hc, hn, hr, if_pos]
    exact cacheMatch_settle_putIn _ _ _ _
  | none =>
    simp only [staleWhileRevalidate, hc, hn, hr, if_pos]
    exact cacheMatch_settle_putIn _ _ _ _

/-- C8: a static-class request with a cached entry is answered with the
cached response whatever the network does — the result is the same for a
fetch that is delayed, fails, or succeeds — and when the fetch resolves ok
the partition ends up holding the fresh response once the background write
settles, regardless of which response satisfied the request. -/
theorem C8_swr_cached_immediate (url name : String) (net : Network)
    (s : CacheStorage) (c : Response)
    (h : cacheMatch (s.getPartition name) url = some c) :
    (staleWhileRevalidate url name net s).result = Except.ok (some c) ∧
    (∀ r : Response, net url = some r → r.ok = true →
      cacheMatch (((staleWhileRevalidate url name net s).settle).getPartition name)
        url = some r) :=
  ⟨swr_hit_result h, fun _ hn hr => swr_settle_update hn hr⟩

/-- Witness for C8: with a concrete cached stylesheet, a failing network
still yields the cached response, and an ok network yields the cached
response now and the fresh response in the partition after settling. -/
theorem C8_swr_cached_immediate_witness :
    (staleWhileRevalidate "/assets/css/main.css" staticCacheName failNet
        [(staticCacheName, [("/assets/css/main.css", okResp)])]).result =
      Except.ok (some okResp) ∧
    ((staleWhileRevalidate "/assets/css/main.css" staticCacheName okNet
        [(staticCacheName, [("/assets/css/main.css", srvErrResp)])]).result =
      Except.ok (some srvErrResp) ∧
     cacheMatch (((staleWhileRevalidate "/assets/css/main.css" staticCacheName okNet
        [(staticCacheName, [("/assets/css/main.css", srvErrResp)])]).settle).getPartition
        staticCacheName) "/assets/css/main.css" = some okResp) :=
  ⟨(C8_swr_cached_immediate "/assets/css/main.css" staticCacheName failNet
      [(staticCacheName, [("/assets/css/main.css", okResp)])] okResp (by decide)).1,
   (C8_swr_cached_immediate "/assets/css/main.css" staticCacheName okNet
      [(staticCacheName, [("/assets/css/main.css", srvErrResp)])] srvErrResp
      (by decide)).1,
   (C8_swr_cached_immediate "/assets/css/main.css" staticCacheName okNet
      [(staticCacheName, [("/assets/css/main.css", srvErrResp)])] srvErrResp
      (by decide)).2 okResp rfl rfl⟩

/-! ### C2: stale-while-revalidate on a miss with a failed fetch -/

/-- Counterexample for C2: on a static-class miss with a rejected fetch,
`staleWhileRevalidate` resolves with the pre-fetch cache snapshot — which
is no response at all on a miss — rather than surfacing the failure: the
result is `Except.ok none` (the promise resolves to `undefined`), not an
error. -/
theorem C2_swr_miss_counterexample :
    (staleWhileRevalidate "/assets/css/main.css" staticCacheName failNet []).result =
      Except.ok none ∧
    (staleWhileRevalidate "/assets/css/main.css" staticCacheName failNet []).result ≠
      Except.error () := by
  decide

/-- C2 as amended: on a static-class miss the strategy waits for the fetch
outcome; a resolved fetch is returned (ok or not), while a rejected fetch
is swallowed by the `.catch` and the function resolves with the cache
snapshot taken before the fetch started — `none` on a miss — and in no
case does it reject with an error. -/
theorem C2_swr_miss_amended (url name : String) (net : Network) (s : CacheStorage)
    (h : cacheMatch (s.getPartition name) url = none) :
    (∀ r : Response, net url = some r →
      (staleWhileRevalidate url name net s).result = Except.ok (some r)) ∧
    (net url = none →
      (staleWhileRevalidate url name net s).result = Except.ok none) ∧
    (staleWhileRevalidate url name net s).result ≠ Except.error () := by
  have h₁ : cacheMatch ((s.openCache name).getPartition name) url = none := by
    rw [getPartition_openCache]; exact h
  refine ⟨?_, ?_, ?_⟩
  · intro r hn
    simp [staleWhileRevalidate, h₁, hn]
  · intro hn
    simp [staleWhileRevalidate, h₁, hn]
  · cases hn : net url with
    | none => simp [staleWhileRevalidate, h₁, hn]
    | some r => simp [staleWhileRevalidate, h₁, hn]

/-- Witness for C2 (amended) at a concrete miss: a resolving network gives
back the network response and a rejecting network gives `Except.ok none`. -/
theorem C2_swr_miss_amended_witness :
    (staleWhileRevalidate "/assets/css/components.css" staticCacheName okNet []).result =
      Except.ok (some okResp) ∧
    (staleWhileRevalidate "/assets/css/components.css" staticCacheName failNet []).result =
      Except.ok none :=
  ⟨(C2_swr_miss_amended "/assets/css/components.css" staticCacheName okNet []
      (by decide)).1 okResp rfl,
   (C2_swr_miss_amended "/assets/css/components.css" staticCacheName failNet []
      (by decide)).2.1 rfl⟩

/-! ### C3: network-first and server errors -/

/-- The cached document used in the C3 counterexample. -/
def cachedPage : Response := { ok := true, body := "cached page" }

/-- A runtime partition already holding a cached copy of the home page. -/
def c3state : CacheStorage := [(runtimeCacheName, [("/index.html", cachedPage)])]

/-- Counterexample for C3: with a cached copy of `/index.html` present in
the runtime partition, a fetch that resolves with a server error (non-ok
response) is returned to the caller as-is; `networkFirst` does not fall
back to the cached match, because only a rejected fetch reaches its catch
branch. -/
theorem C3_server_error_counterexample :
    cacheMatch (c3state.getPartition runtimeCacheName) "/index.html" =
      some cachedPage ∧
    (networkFirst "/index.html" runtimeCacheName srvErrNet c3state).result =
      Except.ok (some srvErrResp) ∧
    (networkFirst "/index.html" runtimeCacheName srvErrNet c3state).result ≠
      Except.ok (some cachedPage) := by
  decide

/-- C3 as amended: only a network-level fetch rejection is recovered by the
runtime-partition fallback — a cached match is returned when present, and
with no cached match the rejection propagates — whereas any resolved
response, a non-ok server error included, is returned to the caller
unchanged (and a non-ok response is not written to the cache). -/
theorem C3_network_first_amended (url name : String) (net : Network)
    (s : CacheStorage) :
    (∀ c : Response, net url = none →
      cacheMatch (s.getPartition name) url = some c →
      (networkFirst url name net s).result = Except.ok (some c)) ∧
    (net url = none → cacheMatch (s.getPartition name) url = none →
      (networkFirst url name net s).result = Except.error ()) ∧
    (∀ r : Response, net url = some r →
      (networkFirst url name net s).result = Except.ok (some r) ∧
      (r.ok = false → (networkFirst url name net s).pending = [])) := by
  refine ⟨?_, ?_, ?_⟩
  · intro c hn h
    have h₁ : cacheMatch ((s.openCache name).getPartition name) url = some c := by
      rw [getPartition_openCache]; exact h
    simp [networkFirst, hn, h₁]
  · intro hn h
    have h₁ : cacheMatch ((s.openCache name).getPartition name) url = none := by
      rw [getPartition_openCache]; exact h
    simp [networkFirst, hn, h₁]
  · intro r hn
    by_cases hr : r.ok = true <;> simp [networkFirst, hn, hr]

/-- Witness for C3 (amended): rejected fetch with a cached page falls back
to it; rejected fetch with an empty runtime cache propagates the error; a
server-error response is returned unchanged with nothing written. -/
theorem C3_network_first_amended_witness :
    (networkFirst "/index.html" runtimeCacheName failNet c3state).result =
      Except.ok (some cachedPage) ∧
    (networkFirst "/about.html" runtimeCacheName failNet []).result =
      Except.error () ∧
    (networkFirst "/index.html" runtimeCacheName srvErrNet c3state).result =
      Except.ok (some srvErrResp) ∧
    (networkFirst "/index.html" runtimeCacheName srvErrNet c3state).pending = [] :=
  ⟨(C3_network_first_amended "/index.html" runtimeCacheName failNet c3state).1
      cachedPage rfl (by decide),
   (C3_network_first_amended "/about.html" runtimeCacheName failNet []).2.1
      rfl (by decide),
   ((C3_network_first_amended "/index.html" runtimeCacheName srvErrNet c3state).2.2
      srvErrResp rfl).1,
   ((C3_network_first_amended "/index.html" runtimeCacheName srvErrNet c3state).2.2
      srvErrResp rfl).2 rfl⟩

/-! ### C4: cache-first miss stores before returning? -/

/-- The outcome of a cache-first miss on an ok network, used by the C4
counterexample. -/
def c4out : StratOutcome :=
  cacheFirst "/assets/3d/m1.glb" modelsCacheName okNet [(modelsCacheName, [])]

/-- Counterexample for C4: on a model-class miss with an ok fetch, the
source calls `cache.put` without awaiting it, so at the moment the strategy
returns the response the model partition does not yet contain the copy —
the write is still pending and only lands once the background task
settles.  The claim that the cache write completes prior to the return is
therefore false at this input. -/
theorem C4_unawaited_write_counterexample :
    c4out.result = Except.ok (some okResp) ∧
    cacheMatch (c4out.storage.getPartition modelsCacheName) "/assets/3d/m1.glb" =
      none ∧
    c4out.pending = [(modelsCacheName, "/assets/3d/m1.glb", okResp)] ∧
    cacheMatch ((c4out.settle).getPartition modelsCacheName) "/assets/3d/m1.glb" =
      some okResp := by
  decide

theorem cacheFirst_miss_fail {url name : String} {net : Network}
    {s : CacheStorage} (h : cacheMatch (s.getPartition name) url = none)
    (hn : net url = none) :
    cacheFirst url name net s = ⟨.error (), s.openCache name, [], [url]⟩ := by
  have h₁ : cacheMatch ((s.openCache name).getPartition name) url = none := by
    rw [getPartition_openCache]; exact h
  simp [cacheFirst, h₁, hn]

/-- C4 as amended: on a model-class miss whose fetch resolves ok, the
strategy initiates the cache write before returning the network response
but does not await it — the copy is in the partition once the pending
write settles, not necessarily at return time — and on a rejected fetch
the network error propagates unchanged. -/
theorem C4_cache_first_miss_amended (url name : String) (net : Network)
    (s : CacheStorage) (h : cacheMatch (s.getPartition name) url = none) :
    (∀ r : Response, net url = some r → r.ok = true →
      (cacheFirst url name net s).result = Except.ok (some r) ∧
      (cacheFirst url name net s).pending = [(name, url, r)] ∧
      cacheMatch (((cacheFirst url name net s).settle).getPartition name) url =
        some r) ∧
    (net url = none → (cacheFirst url name net s).result = Except.error ()) := by
  constructor
  · intro r hn hr
    have hcf := cacheFirst_miss_ok h hn hr
    refine ⟨by rw [hcf], by rw [hcf], ?_⟩
    have hsettle : (cacheFirst url name net s).settle =
        (s.openCache name).putIn name url r := by
      rw [hcf]; rfl
    rw [hsettle]
    exact cacheMatch_settle_putIn _ _ _ _
  · intro hn
    rw [cacheFirst_miss_fail h hn]

/-- Witness for C4 (amended) at a concrete model miss: an ok fetch returns
the response with the write pending and settled afterwards; a rejected
fetch produces an error. -/
theorem C4_cache_first_miss_amended_witness :
    ((cacheFirst "/assets/3d/m2.glb" modelsCacheName okNet []).result =
        Except.ok (some okResp) ∧
      (cacheFirst "/assets/3d/m2.glb" modelsCacheName okNet []).pending =
        [(modelsCacheName, "/assets/3d/m2.glb", okResp)] ∧
      cacheMatch (((cacheFirst "/assets/3d/m2.glb" modelsCacheName okNet
        []).settle).getPartition modelsCacheName) "/assets/3d/m2.glb" =
        some okResp) ∧
    (cacheFirst "/assets/3d/m2.glb" modelsCacheName failNet []).result =
      Except.error () :=
  ⟨(C4_cache_first_miss_amended "/assets/3d/m2.glb" modelsCacheName okNet []
      (by decide)).1 okResp rfl rfl,
   (C4_cache_first_miss_amended "/assets/3d/m2.glb" modelsCacheName failNet []
      (by decide)).2 rfl⟩

/-! ### C5: the CACHE_STATUS reply -/

/-- Seven distinct same-origin model-class requests. -/
def c5urls : List Url :=
  [{ origin := "https://example.com", pathname := "/assets/3d/m1.glb" },
   { origin := "https://example.com", pathname := "/assets/3d/m2.glb" },
   { origin := "https://example.com", pathname := "/assets/3d/m3.glb" },
   { origin := "https://example.com", pathname := "/assets/3d/m4.glb" },
   { origin := "https://example.com", pathname := "/assets/3d/m5.glb" },
   { origin := "https://example.com", pathname := "/assets/3d/m6.glb" },
   { origin := "https://example.com", pathname := "/assets/3d/m7.glb" }]

/-- The cache state reached from empty storage after the fetch listener has
handled the seven model-class requests of `c5urls` on an ok network. -/
def c5state : CacheStorage := runRequests "https://example.com" c5urls okNet []

/-- Counterexample for C5: the fetch listener routes every same-origin
`.glb` request through `cacheFirst` into the model partition, whether or
not the URL is in `MODEL_ASSETS`; after seven distinct model requests the
status reply has `cachedCount = 7 > 6 = totalModels`, so the invariant
`cachedCount <= totalModels` fails in a reachable state (the repository
really serves such a request: `home_animation.glb` is used by the home
page but absent from the worker's manifest). -/
theorem C5_cache_status_counterexample :
    (getCacheStatus c5state).cachedModels.length = (getCacheStatus c5state).cachedCount ∧
    (getCacheStatus c5state).cachedCount = 7 ∧
    (getCacheStatus c5state).totalModels = 6 ∧
    ¬((getCacheStatus c5state).cachedCount ≤ (getCacheStatus c5state).totalModels) := by
  decide

/-- C5 as amended: every status reply satisfies
`cachedModels.length = cachedCount`, and `cachedCount <= totalModels` holds
exactly for states whose model partition holds no duplicate keys and only
manifest URLs (as after install or preload alone); cache-first requests for
non-manifest model URLs can push `cachedCount` above `totalModels`. -/
theorem C5_cache_status_amended (s : CacheStorage) :
    (getCacheStatus s).cachedModels.length = (getCacheStatus s).cachedCount ∧
    ((getCacheStatus s).cachedModels.Nodup →
      (getCacheStatus s).cachedModels ⊆ MODEL_ASSETS →
      (getCacheStatus s).cachedCount ≤ (getCacheStatus s).totalModels) := by
  refine ⟨rfl, ?_⟩
  intro hnd hsub
  exact (List.subperm_of_subset hnd hsub).length_le

/-- Witness for C5 (amended): a model partition holding exactly one
manifest model reports `cachedCount = 1 <= 6 = totalModels`. -/
theorem C5_cache_status_amended_witness :
    (getCacheStatus [(modelsCacheName, [("./assets/3d/staff.glb", okResp)])]).cachedModels.length =
      (getCacheStatus [(modelsCacheName, [("./assets/3d/staff.glb", okResp)])]).cachedCount ∧
    (getCacheStatus [(modelsCacheName, [("./assets/3d/staff.glb", okResp)])]).cachedCount ≤
      (getCacheStatus [(modelsCacheName, [("./assets/3d/staff.glb", okResp)])]).totalModels :=
  ⟨(C5_cache_status_amended [(modelsCacheName, [("./assets/3d/staff.glb", okResp)])]).1,
   (C5_cache_status_amended [(modelsCacheName, [("./assets/3d/staff.glb", okResp)])]).2
      (by decide) (by decide)⟩

/-! ### C7: install failure semantics and ordering -/

theorem foldl_trace_log (net : Network) :
    ∀ (l : List String) (x : CacheStorage) (log : List String),
      (l.foldl (fun acc m => (cacheModelsStep net acc.1 m, acc.2 ++ [m])) (x, log)).2 =
        log ++ l := by
  intro l
  induction l with
  | nil => intro x log; simp
  | cons m t ih =>
    intro x log
    simp only [List.foldl_cons]
    rw [ih]
    simp

theorem installTrace_log (net : Network) (s : CacheStorage) :
    (installTrace net s).2 = MODEL_ASSETS ++ STATIC_ASSETS := by
  simp only [installTrace]
  split <;> simp [foldl_trace_log net MODEL_ASSETS]

/-- C7: during install a per-model fetch-and-store failure is non-fatal —
install succeeds for every network on which all static fetches are ok,
however the model fetches behave — whereas a single failing static asset
makes the whole install reject; and the fetch log shows every model asset
attempted in strict manifest order before the static bulk store. -/
theorem C7_install_semantics (net : Network) (s : CacheStorage) :
    (STATIC_ASSETS.all (fetchOk net) = true →
      ∃ s₃, (installTrace net s).1 = Except.ok s₃) ∧
    (STATIC_ASSETS.all (fetchOk net) = false →
      (installTrace net s).1 = Except.error ()) ∧
    (installTrace net s).2 = MODEL_ASSETS ++ STATIC_ASSETS := by
  refine ⟨?_, ?_, installTrace_log net s⟩
  · intro h
    simp only [installTrace, addAll, h, if_pos]
    exact ⟨_, rfl⟩
  · intro h
    simp [installTrace, addAll, h]

/-- A network on which exactly the four static assets fetch ok and every
model fetch rejects. -/
def staticOnlyNet : Network :=
  fun a => if STATIC_ASSETS.contains a then some okResp else none

/-- A network on which one static asset (`main.js`) rejects and everything
else is ok. -/
def dropMainJsNet : Network :=
  fun a => if a == "./assets/js/main.js" then none else some okResp

/-- Witness for C7: with every model fetch failing but all statics ok, the
install completes; with a single static asset failing, it rejects; and the
fetch log is the model manifest followed by the static manifest. -/
theorem C7_install_semantics_witness :
    (∃ s₃, (installTrace staticOnlyNet []).1 = Except.ok s₃) ∧
    (installTrace dropMainJsNet []).1 = Except.error () ∧
    (installTrace staticOnlyNet []).2 = MODEL_ASSETS ++ STATIC_ASSETS :=
  ⟨(C7_install_semantics staticOnlyNet []).1 (by decide),
   (C7_install_semantics dropMainJsNet []).2.1 (by decide),
   (C7_install_semantics staticOnlyNet []).2.2⟩

/-! ### C10: only ok responses are ever written to a partition -/

theorem partitionAllOk_put {p : Partition} {u : String} {r : Response}
    (hp : p.all (fun e => e.2.ok) = true) (hr : r.ok = true) :
    (partitionPut p u r).all (fun e => e.2.ok) = true := by
  simp only [partitionPut, List.all_cons, hr, Bool.true_and]
  rw [List.all_eq_true] at hp ⊢
  intro e he
  exact hp e (List.mem_of_mem_filter he)

theorem storageAllOk_putIn {n u : String} {r : Response} (hr : r.ok = true) :
    ∀ {s : CacheStorage}, storageAllOk s = true →
      storageAllOk (s.putIn n u r) = true := by
  intro s
  induction s with
  | nil =>
    intro _
    simp [CacheStorage.putIn, storageAllOk, partitionPut, hr]
  | cons c t ih =>
    intro hs
    simp only [storageAllOk, List.all_cons, Bool.and_eq_true] at hs
    by_cases hc : (c.1 == n) = true
    · simp only [CacheStorage.putIn, hc, if_pos]
      simp [storageAllOk, partitionAllOk_put hs.1 hr, hs.2]
    · simp only [CacheStorage.putIn, hc]
      simp only [Bool.false_eq_true, if_false]
      simp only [storageAllOk, List.all_cons, Bool.and_eq_true]
      exact ⟨hs.1, ih hs.2⟩

theorem storageAllOk_openCache {n : String} {s : CacheStorage}
    (hs : storageAllOk s = true) : storageAllOk (s.openCache n) = true := by
  unfold CacheStorage.openCache
  split
  · exact hs
  · simp only [storageAllOk, List.all_append] at *
    simp [hs]

theorem storageAllOk_pendingFold :
    ∀ (l : List (String × String × Response)) (s : CacheStorage),
      storageAllOk s = true → (∀ e ∈ l, e.2.2.ok = true) →
      storageAllOk (l.foldl (fun s e => s.putIn e.1 e.2.1 e.2.2) s) = true := by
  intro l
  induction l with
  | nil => intro s hs _; exact hs
  | cons e t ih =>
    intro s hs hl
    simp only [List.foldl_cons]
    exact ih _ (storageAllOk_putIn (hl e (List.mem_cons_self e t)) hs)
      (fun x hx => hl x (List.mem_cons_of_mem e hx))

theorem storageAllOk_foldl {β : Type} (f : CacheStorage → β → CacheStorage) :
    ∀ (l : List β) (s : CacheStorage),
      (∀ x b, b ∈ l → storageAllOk x = true → storageAllOk (f x b) = true) →
      storageAllOk s = true → storageAllOk (l.foldl f s) = true := by
  intro l
  induction l with
  | nil => intro s _ hs; exact hs
  | cons b t ih =>
    intro s hf hs
    simp only [List.foldl_cons]
    exact ih _ (fun x e he hx => hf x e (List.mem_cons_of_mem b he) hx)
      (hf s b (List.mem_cons_self b t) hs)

theorem cacheFirst_miss_nonOk {url name : String} {net : Network}
    {s : CacheStorage} {r : Response}
    (h : cacheMatch (s.getPartition name) url = none)
    (hn : net url = some r) (hr : r.ok = false) :
    cacheFirst url name net s = ⟨.ok (some r), s.openCache name, [], [url]⟩ := by
  have h₁ : cacheMatch ((s.openCache name).getPartition name) url = none := by
    rw [getPartition_openCache]; exact h
  simp [cacheFirst, h₁, hn, hr]

theorem cacheFirst_settle_allOk {url name : String} {net : Network}
    {s : CacheStorage} (hs : storageAllOk s = true) :
    storageAllOk (cacheFirst url name net s).settle = true := by
  have ho : storageAllOk (s.openCache name) = true := storageAllOk_openCache hs
  cases hm : cacheMatch (s.getPartition name) url with
  | some c =>
    rw [cacheFirst_hit net hm]
    simpa [StratOutcome.settle] using hs
  | none =>
    cases hn : net url with
    | none =>
      rw [cacheFirst_miss_fail hm hn]
      simpa [StratOutcome.settle] using ho
    | some r =>
      by_cases hr : r.ok = true
      · rw [cacheFirst_miss_ok hm hn hr]
        simp only [StratOutcome.settle, List.foldl_cons, List.foldl_nil]
        exact storageAllOk_putIn hr ho
      · rw [cacheFirst_miss_nonOk hm hn (Bool.not_eq_true r.ok ▸ hr)]
        simpa [StratOutcome.settle] using ho

theorem swr_eq_fail {url name : String} {net : Network} {s : CacheStorage}
    (hn : net url = none) :
    staleWhileRevalidate url name net s =
      ⟨.ok (cacheMatch ((s.openCache name).getPartition name) url),
        s.openCache name, [], [url]⟩ := by
  cases hc : cacheMatch ((s.openCache name).getPartition name) url <;>
    simp [staleWhileRevalidate, hc, hn]

theorem swr_eq_net {url name : String} {net : Network} {s : CacheStorage}
    {r : Response} (hn : net url = some r) :
    staleWhileRevalidate url name net s =
      ⟨.ok ((cacheMatch ((s.openCache name).getPartition name) url).orElse
          (fun _ => some r)),
        s.openCache name,
        if r.ok then [(name, url, r)] else [], [url]⟩ := by
  cases hc : cacheMatch ((s.openCache name).getPartition name) url <;>
    simp [staleWhileRevalidate, hc, hn, Option.orElse]

theorem swr_settle_allOk {url name : String} {net : Network}
    {s : CacheStorage} (hs : storageAllOk s = true) :
    storageAllOk (staleWhileRevalidate url name net s).settle = true := by
  have ho : storageAllOk (s.openCache name) = true := storageAllOk_openCache hs
  cases hn : net url with
  | none =>
    rw [swr_eq_fail hn]
    simpa [StratOutcome.settle] using ho
  | some r =>
    rw [swr_eq_net hn]
    by_cases hr : r.ok = true
    · simp only [hr, if_pos, StratOutcome.settle, List.foldl_cons, List.foldl_nil]
      exact storageAllOk_putIn hr ho
    · simp only [hr, Bool.false_eq_true, if_false, StratOutcome.settle, List.foldl_nil]
      exact ho

theorem networkFirst_eq_net {url name : String} {net : Network}
    {s : CacheStorage} {r : Response} (hn : net url = some r) :
    networkFirst url name net s =
      ⟨.ok (some r), s.openCache name,
        if r.ok then [(name, url, r)] else [], [url]⟩ := by
  by_cases hr : r.ok = true <;> simp [networkFirst, hn, hr]

theorem networkFirst_eq_fail {url name : String} {net : Network}
    {s : CacheStorage} (hn : net url = none) :
    networkFirst url name net s =
      ⟨match cacheMatch ((s.openCache name).getPartition name) url with
        | some c => .ok (some c)
        | none => .error (),
        s.openCache name, [], [url]⟩ := by
  cases hc : cacheMatch ((s.openCache name).getPartition name) url <;>
    simp [networkFirst, hc, hn]

theorem networkFirst_settle_allOk {url name : String} {net : Network}
    {s : CacheStorage} (hs : storageAllOk s = true) :
    storageAllOk (networkFirst url name net s).settle = true := by
  have ho : storageAllOk (s.openCache name) = true := storageAllOk_openCache hs
  cases hn : net url with
  | none =>
    rw [networkFirst_eq_fail hn]
    simpa [StratOutcome.settle] using ho
  | some r =>
    rw [networkFirst_eq_net hn]
    by_cases hr : r.ok = true
    · simp only [hr, if_pos, StratOutcome.settle, List.foldl_cons, List.foldl_nil]
      exact storageAllOk_putIn hr ho
    · simp only [hr, Bool.false_eq_true, if_false, StratOutcome.settle, List.foldl_nil]
      exact ho

theorem cacheModelsStep_allOk {net : Network} {x : CacheStorage} {m : String}
    (hx : storageAllOk x = true) :
    storageAllOk (cacheModelsStep net x m) = true := by
  unfold cacheModelsStep
  cases net m with
  | none => exact hx
  | some r =>
    by_cases hr : r.ok = true
    · simp only [hr, if_pos]
      exact storageAllOk_putIn hr hx
    · simp [hr, hx]

theorem addAll_ok_allOk {net : Network} {name : String} {assets : List String}
    {s s₃ : CacheStorage} (hs : storageAllOk s = true)
    (h : addAll net name assets s = Except.ok s₃) : storageAllOk s₃ = true := by
  unfold addAll at h
  by_cases hall : assets.all (fetchOk net) = true
  · rw [if_pos hall] at h
    injection h with h
    subst h
    refine storageAllOk_foldl _ assets s ?_ hs
    intro x a ha hx
    cases hna : net a with
    | none => exact hx
    | some r =>
      have hok : r.ok = true := by
        have := (List.all_eq_true.mp hall) a ha
        simpa [fetchOk, hna] using this
      simpa using storageAllOk_putIn hok hx
  · rw [if_neg hall] at h
    exact Except.noConfusion h

theorem foldl_trace_storage (net : Network) :
    ∀ (l : List String) (x : CacheStorage) (log : List String),
      (l.foldl (fun acc m => (cacheModelsStep net acc.1 m, acc.2 ++ [m])) (x, log)).1 =
        l.foldl (cacheModelsStep net) x := by
  intro l
  induction l with
  | nil => intro x log; rfl
  | cons m t ih =>
    intro x log
    simp only [List.foldl_cons]
    exact ih _ _

theorem installTrace_allOk {net : Network} {s : CacheStorage}
    (hs : storageAllOk s = true) :
    ∀ s₃, (installTrace net s).1 = Except.ok s₃ → storageAllOk s₃ = true := by
  intro s₃ h
  simp only [installTrace] at h
  split at h
  · rename_i s4 heq
    simp only at h
    injection h with h
    subst h
    refine addAll_ok_allOk ?_ heq
    refine storageAllOk_openCache ?_
    rw [foldl_trace_storage]
    exact storageAllOk_foldl _ MODEL_ASSETS _
      (fun x b _ hx => cacheModelsStep_allOk hx) (storageAllOk_openCache hs)
  · rename_i e heq
    simp only at h
    exact Except.noConfusion h

theorem preloadModelsStep_allOk {net : Network} {x : CacheStorage} {m : String}
    (hx : storageAllOk x = true) :
    storageAllOk (preloadModelsStep net x m) = true := by
  unfold preloadModelsStep
  cases cacheMatch (x.getPartition modelsCacheName) m with
  | some _ => exact hx
  | none =>
    cases net m with
    | none => exact hx
    | some r =>
      by_cases hr : r.ok = true
      · simp only [hr, if_pos]
        exact storageAllOk_putIn hr hx
      · simp [hr, hx]

theorem preloadModels_allOk {net : Network} {s : CacheStorage}
    (hs : storageAllOk s = true) : storageAllOk (preloadModels net s) = true :=
  storageAllOk_foldl _ MODEL_ASSETS _
    (fun _ _ _ hx => preloadModelsStep_allOk hx) (storageAllOk_openCache hs)

theorem preloadWithFetch_allOk {url name : String} {net : Network}
    {s : CacheStorage} (hs : storageAllOk s = true) :
    storageAllOk (preloadWithFetch url name net s) = true := by
  unfold preloadWithFetch
  cases net url with
  | none => exact hs
  | some r =>
    by_cases hr : r.ok = true
    · simp only [hr, if_pos]
      exact storageAllOk_putIn hr hs
    · simp [hr, hs]

theorem preloadAllModels_allOk {net : Network} {s : CacheStorage}
    (hs : storageAllOk s = true) : storageAllOk (preloadAllModels net s) = true := by
  refine storageAllOk_foldl _ PRELOADER_MODELS _ ?_ (storageAllOk_openCache hs)
  intro x m _ hx
  cases cacheMatch (x.getPartition "penta-3d-models-v1") m with
  | some _ => exact hx
  | none => exact preloadWithFetch_allOk hx

/-- C10: every cache write of the worker and of the page-side preloader is
guarded by the `ok` flag of the fetched response — starting from any
storage whose entries are all ok, the settled state after any strategy, a
completed install, the worker's force-preload and the page preloader again
contains only ok responses; a non-ok response is returned (or skipped) but
never stored. -/
theorem C10_ok_guarded_writes (url name : String) (net : Network)
    (s : CacheStorage) (hs : storageAllOk s = true) :
    storageAllOk (cacheFirst url name net s).settle = true ∧
    storageAllOk (staleWhileRevalidate url name net s).settle = true ∧
    storageAllOk (networkFirst url name net s).settle = true ∧
    (∀ s₃, (installTrace net s).1 = Except.ok s₃ → storageAllOk s₃ = true) ∧
    storageAllOk (preloadModels net s) = true ∧
    storageAllOk (preloadWithFetch url name net s) = true ∧
    storageAllOk (preloadAllModels net s) = true :=
  ⟨cacheFirst_settle_allOk hs, swr_settle_allOk hs, networkFirst_settle_allOk hs,
   installTrace_allOk hs, preloadModels_allOk hs, preloadWithFetch_allOk hs,
   preloadAllModels_allOk hs⟩

/-- The storage produced by a successful install on an all-ok network, used
by the C10 witness. -/
def c10installStorage : CacheStorage :=
  match (installTrace okNet []).1 with
  | .ok s => s
  | .error _ => []

/-- Witness for C10 at concrete inputs: from empty storage, a server-error
network leaves every partition all-ok after each strategy and preload, and
the storage of a completed install on an ok network is all-ok. -/
theorem C10_ok_guarded_writes_witness :
    storageAllOk (cacheFirst "/assets/3d/m1.glb" modelsCacheName srvErrNet []).settle = true ∧
    storageAllOk (staleWhileRevalidate "/assets/3d/m1.glb" modelsCacheName srvErrNet []).settle = true ∧
    storageAllOk (networkFirst "/assets/3d/m1.glb" modelsCacheName srvErrNet []).settle = true ∧
    storageAllOk c10installStorage = true ∧
    storageAllOk (preloadModels srvErrNet []) = true ∧
    storageAllOk (preloadWithFetch "/assets/3d/m1.glb" modelsCacheName srvErrNet []) = true ∧
    storageAllOk (preloadAllModels srvErrNet []) = true :=
  ⟨(C10_ok_guarded_writes "/assets/3d/m1.glb" modelsCacheName srvErrNet [] (by decide)).1,
   (C10_ok_guarded_writes "/assets/3d/m1.glb" modelsCacheName srvErrNet [] (by decide)).2.1,
   (C10_ok_guarded_writes "/assets/3d/m1.glb" modelsCacheName srvErrNet [] (by decide)).2.2.1,
   (C10_ok_guarded_writes "/assets/3d/m1.glb" modelsCacheName okNet [] (by decide)).2.2.2.1
      c10installStorage rfl,
   (C10_ok_guarded_writes "/assets/3d/m1.glb" modelsCacheName srvErrNet [] (by decide)).2.2.2.2.1,
   (C10_ok_guarded_writes "/assets/3d/m1.glb" modelsCacheName srvErrNet [] (by decide)).2.2.2.2.2.1,
   (C10_ok_guarded_writes "/assets/3d/m1.glb" modelsCacheName srvErrNet [] (by decide)).2.2.2.2.2.2⟩
